import Mathlib

/-!
Verification of the surveillance-bot summarization scripts.

The repository contains two Python script variants:
 * `src/main.py` — the full pipeline: locate the most recent report folder,
   iterate the channel JSON files inside it, build a summarization prompt,
   invoke a local llama.cpp model, and post the result (or a "no activity"
   notice for empty channels) to a Discord webhook.
 * `src/llm/main.py` — an early variant that only builds the prompt from a
   single JSON file and writes it to `prompt.txt`.

We embed the data model and the control flow of `src/main.py` as a pure
function from an abstract environment (folder listing, webhook configuration,
model behaviour, webhook response behaviour) to a trace of observable events
together with an optional fatal error, and prove the specified properties
about it.
-/

namespace Surveillance

/-- A parsed JSON message record.  Each field is `none` when the key is
absent from the JSON object (`msg['author']` / `msg['content']` would then
raise `KeyError` in Python). -/
structure MessageJson where
  author : Option String
  content : Option String
  deriving DecidableEq, Repr

/-- A channel JSON file inside a report folder: the file-name stem
(`os.path.splitext(os.path.basename(json_path))[0]`) and the parsed
message array. -/
structure Channel where
  name : String
  messages : List MessageJson
  deriving DecidableEq, Repr

/-- A report subdirectory under `./reports/`: its path, its modification
time (`os.path.getmtime`), and the channel JSON files it contains. -/
structure Folder where
  path : String
  mtime : Nat
  channels : List Channel
  deriving DecidableEq, Repr

/-- `latest_folder = max(folders, key=os.path.getmtime)` from `src/main.py`.
Python's `max` raises `ValueError` on an empty iterable (modelled as `none`)
and otherwise returns the first element whose key is maximal (a later
element replaces the current maximum only when strictly greater). -/
def latest_folder : List Folder → Option Folder
  | [] => none
  | f :: fs => some (fs.foldl (fun acc g => if g.mtime > acc.mtime then g else acc) f)

/-- The `KeyError` raised by `msg['author']` / `msg['content']` when the key
is missing. -/
inductive KeyErr where
  | author
  | content
  deriving DecidableEq, Repr

/-- One element of the list comprehension
`[f"{msg['author']}: {msg['content']}" for msg in messages]`.
Python evaluates `msg['author']` first, so a record missing both keys
raises `KeyError: 'author'`. -/
def formatLine (m : MessageJson) : Except KeyErr String :=
  match m.author with
  | none => .error .author
  | some a =>
    match m.content with
    | none => .error .content
    | some c => .ok (a ++ ": " ++ c)

/-- The whole list comprehension: stops at the first record that raises. -/
def formatLines : List MessageJson → Except KeyErr (List String)
  | [] => .ok []
  | m :: ms =>
    match formatLine m with
    | .error e => .error e
    | .ok line =>
      match formatLines ms with
      | .error e => .error e
      | .ok rest => .ok (line :: rest)

/-- `conversation = "\n".join(lines)`. -/
def conversationOf (lines : List String) : String :=
  String.intercalate "\n" lines

/-- The f-string prompt template of `src/main.py`:
`f"""次の会話を要約してください（日本語）:\n\n{conversation}\n\n要約:\n"""`. -/
def promptTemplate (conversation : String) : String :=
  "次の会話を要約してください（日本語）:\n\n" ++ conversation ++ "\n\n要約:\n"

/-- The prompt `src/main.py` builds from a message array, when no record
raises `KeyError`. -/
def promptOf (messages : List MessageJson) : Option String :=
  match formatLines messages with
  | .error _ => none
  | .ok lines => some (promptTemplate (conversationOf lines))

/-- The webhook body for an empty channel:
`f"**{file_name} チャンネルは過去一日間にメッセージがありませんでした。**\n要約はありません。"`. -/
def noActivityContent (name : String) : String :=
  "**" ++ name ++ " チャンネルは過去一日間にメッセージがありませんでした。**\n要約はありません。"

/-- The webhook body for a summarized channel:
`f"**{file_name} チャンネル の要約**\n{text}"`. -/
def summaryContent (name : String) (text : String) : String :=
  "**" ++ name ++ " チャンネル の要約**\n" ++ text

/-- Observable events of a run of `src/main.py`. -/
inductive Event where
  /-- The list comprehension over the channel's messages completed. -/
  | formatted (channel : String)
  /-- `llm(prompt, max_tokens=250, stream=False)` was called and returned. -/
  | invoked (channel : String) (prompt : String)
  /-- `requests.post(WEBHOOK_URL, json=data)` was sent and answered. -/
  | posted (channel : String) (content : String) (status : Nat)
  /-- The success print after a 204 response. -/
  | logOk (channel : String)
  /-- The `Discord送信失敗` print after a non-204 response. -/
  | logFail (channel : String) (status : Nat)
  deriving DecidableEq, Repr

/-- Is the event a webhook POST? -/
def Event.isPost : Event → Bool
  | .posted _ _ _ => true
  | _ => false

/-- Is the event a model invocation? -/
def Event.isInvoked : Event → Bool
  | .invoked _ _ => true
  | _ => false

/-- The ways a run of `src/main.py` can die with an uncaught exception. -/
inductive Fatal where
  /-- `max(folders, ...)` on an empty folder list (`ValueError`). -/
  | noFolders
  /-- `Llama(...)` failed to load the model. -/
  | modelLoadFailed
  /-- `raise Exception(...)` because `DISCORD_WEBHOOK_URL` is unset. -/
  | webhookUnset
  /-- `KeyError` while formatting the named channel. -/
  | keyError (channel : String)
  /-- `llm(prompt, ...)` raised while generating for the named channel. -/
  | generationFailed (channel : String)
  deriving DecidableEq, Repr

/-- The abstract environment a run executes in: the report folder listing,
the webhook configuration, whether `Llama(...)` loads, what the model
returns for a prompt (`none` = generation raises), and the HTTP status the
webhook answers for a given request body. -/
structure Env where
  folders : List Folder
  webhookUrl : Option String
  modelLoadOk : Bool
  llm : String → Option String
  post : String → Nat

/-- The body of the `for json_path in json_files:` loop for one channel:
the events it emits and the fatal error it raises, if any. -/
def processChannel (env : Env) (ch : Channel) : List Event × Option Fatal :=
  if ch.messages = [] then
    let content := noActivityContent ch.name
    let status := env.post content
    let logEv := if status = 204 then Event.logOk ch.name else Event.logFail ch.name status
    ([Event.posted ch.name content status, logEv], none)
  else
    match formatLines ch.messages with
    | .error _ => ([], some (.keyError ch.name))
    | .ok lines =>
      let prompt := promptTemplate (conversationOf lines)
      match env.llm prompt with
      | none => ([Event.formatted ch.name], some (.generationFailed ch.name))
      | some text =>
        let content := summaryContent ch.name text
        let status := env.post content
        let logEv := if status = 204 then Event.logOk ch.name else Event.logFail ch.name status
        ([Event.formatted ch.name, Event.invoked ch.name prompt,
          Event.posted ch.name content status, logEv], none)

/-- The channel loop: an uncaught exception in one iteration aborts the
loop; otherwise the next channel is processed. -/
def runChannels (env : Env) : List Channel → List Event × Option Fatal
  | [] => ([], none)
  | ch :: rest =>
    match processChannel env ch with
    | (evs, some e) => (evs, some e)
    | (evs, none) =>
      let (evs2, f2) := runChannels env rest
      (evs ++ evs2, f2)

/-- A whole run of `src/main.py`, in source order: select the latest report
folder (`ValueError` when there is none), construct the `Llama` model,
check `DISCORD_WEBHOOK_URL`, then loop over the channel files of the
latest folder. -/
def run (env : Env) : List Event × Option Fatal :=
  match latest_folder env.folders with
  | none => ([], some .noFolders)
  | some folder =>
    if env.modelLoadOk then
      match env.webhookUrl with
      | none => ([], some .webhookUnset)
      | some _ => runChannels env folder.channels
    else ([], some .modelLoadFailed)

end Surveillance

namespace LlmMain

/-- The list comprehension of the early variant `src/llm/main.py`:
`[f"{msg['author']}: {msg['content']}" for msg in messages]`. -/
def formatLine (m : Surveillance.MessageJson) : Except Surveillance.KeyErr String :=
  match m.author with
  | none => .error .author
  | some a =>
    match m.content with
    | none => .error .content
    | some c => .ok (a ++ ": " ++ c)

/-- The early variant's whole list comprehension. -/
def formatLines : List Surveillance.MessageJson → Except Surveillance.KeyErr (List String)
  | [] => .ok []
  | m :: ms =>
    match formatLine m with
    | .error e => .error e
    | .ok line =>
      match formatLines ms with
      | .error e => .error e
      | .ok rest => .ok (line :: rest)

/-- The early variant's f-string template, written to `prompt.txt`:
`f"""次の会話を要約してください（日本語）:\n\n{conversation}\n\n要約:\n"""`. -/
def promptTemplate (conversation : String) : String :=
  "次の会話を要約してください（日本語）:\n\n" ++ conversation ++ "\n\n要約:\n"

/-- The text the early variant writes to `prompt.txt` for a message array,
when no record raises `KeyError`. -/
def promptOf (messages : List Surveillance.MessageJson) : Option String :=
  match formatLines messages with
  | .error _ => none
  | .ok lines => some (promptTemplate (String.intercalate "\n" lines))

end LlmMain

namespace Surveillance

/-- A concrete environment whose webhook URL is unset. -/
def envNoUrl : Env :=
  ⟨[⟨"reports/20250101", 1, [⟨"general", [⟨some "u", some "hi"⟩]⟩]⟩],
    none, true, fun _ => some "summary", fun _ => 204⟩

/-- A concrete environment whose webhook always answers 204. -/
def env204 : Env :=
  ⟨[⟨"reports/20250101", 1, [⟨"general", []⟩, ⟨"dev", []⟩]⟩],
    some "hook", true, fun _ => some "summary", fun _ => 204⟩

/-- A concrete environment whose webhook always answers 500. -/
def env500 : Env :=
  ⟨[⟨"reports/20250101", 1, [⟨"general", []⟩]⟩],
    some "hook", true, fun _ => some "summary", fun _ => 500⟩

/-- A concrete environment whose model always fails to generate; the
failing channel sits between a processable empty channel and a later one. -/
def envGenFail : Env :=
  ⟨[⟨"reports/20250101", 1,
      [⟨"intro", []⟩, ⟨"general", [⟨some "a", some "b"⟩]⟩, ⟨"dev", []⟩]⟩],
    some "hook", true, fun _ => none, fun _ => 204⟩

/-- A concrete environment whose model fails to load. -/
def envLoadFail : Env :=
  ⟨[⟨"reports/20250101", 1, [⟨"general", []⟩]⟩],
    some "hook", false, fun _ => some "summary", fun _ => 204⟩

lemma formatLines_ok_of_keys :
    ∀ (msgs : List MessageJson),
      (∀ m ∈ msgs, m.author ≠ none ∧ m.content ≠ none) →
      ∃ lines, formatLines msgs = .ok lines ∧
        List.Forall₂ (fun m line => ∃ a c, m.author = some a ∧ m.content = some c ∧
          line = a ++ ": " ++ c) msgs lines
  | [], _ => ⟨[], rfl, List.Forall₂.nil⟩
  | m :: ms, h => by
    obtain ⟨ha, hc⟩ := h m (List.mem_cons_self m ms)
    obtain ⟨a, ha2⟩ := Option.ne_none_iff_exists'.mp ha
    obtain ⟨c, hc2⟩ := Option.ne_none_iff_exists'.mp hc
    obtain ⟨lines, hl, hforall⟩ :=
      formatLines_ok_of_keys ms (fun x hx => h x (List.mem_cons_of_mem m hx))
    refine ⟨(a ++ ": " ++ c) :: lines, ?_, ?_⟩
    · simp [formatLines, formatLine, ha2, hc2, hl]
    · exact List.Forall₂.cons ⟨a, c, ha2, hc2, rfl⟩ hforall

/-- C1: for every non-empty list of message records in which each record has
both keys, the formatting succeeds, producing exactly one line per message,
in the original order, each line equal to `author: content`; the prompt is
those lines joined by newlines, wrapped in the fixed instructional
template. -/
theorem prompt_one_line_per_message (msgs : List MessageJson)
    (_hne : msgs ≠ [])
    (hkeys : ∀ m ∈ msgs, m.author ≠ none ∧ m.content ≠ none) :
    ∃ lines, formatLines msgs = .ok lines ∧
      lines.length = msgs.length ∧
      List.Forall₂ (fun m line => ∃ a c, m.author = some a ∧ m.content = some c ∧
        line = a ++ ": " ++ c) msgs lines ∧
      promptOf msgs = some ("次の会話を要約してください（日本語）:\n\n" ++
        String.intercalate "\n" lines ++ "\n\n要約:\n") := by
  obtain ⟨lines, hl, hforall⟩ := formatLines_ok_of_keys msgs hkeys
  exact ⟨lines, hl, hforall.length_eq.symm, hforall,
    by simp [promptOf, hl, promptTemplate, conversationOf]⟩

/-- Witness for C1 at a concrete two-message conversation. -/
theorem prompt_one_line_per_message_witness :
    ([⟨some "alice", some "hi"⟩, ⟨some "bob", some "yo"⟩] : List MessageJson) ≠ [] ∧
    ∃ lines,
      formatLines [⟨some "alice", some "hi"⟩, ⟨some "bob", some "yo"⟩] = .ok lines ∧
      lines.length = ([⟨some "alice", some "hi"⟩, ⟨some "bob", some "yo"⟩] :
        List MessageJson).length ∧
      List.Forall₂ (fun (m : MessageJson) (line : String) =>
          ∃ a c, m.author = some a ∧ m.content = some c ∧ line = a ++ ": " ++ c)
        [⟨some "alice", some "hi"⟩, ⟨some "bob", some "yo"⟩] lines ∧
      promptOf [⟨some "alice", some "hi"⟩, ⟨some "bob", some "yo"⟩] =
        some ("次の会話を要約してください（日本語）:\n\n" ++
          String.intercalate "\n" lines ++ "\n\n要約:\n") :=
  ⟨by decide, prompt_one_line_per_message
    [⟨some "alice", some "hi"⟩, ⟨some "bob", some "yo"⟩] (by decide) (by decide)⟩

lemma formatLine_agree (m : MessageJson) :
    LlmMain.formatLine m = formatLine m := by
  cases m with
  | mk a c => cases a <;> cases c <;> rfl

lemma formatLines_agree : ∀ (msgs : List MessageJson),
    LlmMain.formatLines msgs = formatLines msgs
  | [] => rfl
  | m :: ms => by
    simp only [LlmMain.formatLines, formatLines, formatLine_agree, formatLines_agree ms]

/-- C9: the early variant of the formatter (src/llm/main.py) and the later
variant (src/main.py) build byte-identical prompt text from the same
message list: the two formatting pipelines are extensionally equal. -/
theorem early_prompt_equals_later_prompt (msgs : List MessageJson) :
    LlmMain.promptOf msgs = promptOf msgs := by
  unfold LlmMain.promptOf promptOf
  rw [formatLines_agree]
  cases hfmt : formatLines msgs with
  | error e => simp [hfmt]
  | ok lines => simp [hfmt, LlmMain.promptTemplate, promptTemplate, conversationOf]

lemma latest_folder_cons : ∀ (fs : List Folder) (f : Folder),
    ∃ r, latest_folder (f :: fs) = some r ∧ (r = f ∨ r ∈ fs) ∧
      f.mtime ≤ r.mtime ∧ ∀ g ∈ fs, g.mtime ≤ r.mtime
  | [], f => ⟨f, rfl, Or.inl rfl, le_refl _, by simp⟩
  | g :: gs, f => by
    obtain ⟨r, hr, hmem, hle, hall⟩ :=
      latest_folder_cons gs (if g.mtime > f.mtime then g else f)
    by_cases hgf : g.mtime > f.mtime
    · rw [if_pos hgf] at hmem hle
      refine ⟨r, hr, ?_, le_of_lt (lt_of_lt_of_le hgf hle), ?_⟩
      · rcases hmem with h | h
        · exact Or.inr (h ▸ List.mem_cons_self g gs)
        · exact Or.inr (List.mem_cons_of_mem g h)
      · intro x hx
        rcases List.mem_cons.mp hx with rfl | hx2
        · exact hle
        · exact hall x hx2
    · rw [if_neg hgf] at hmem hle
      refine ⟨r, hr, ?_, hle, ?_⟩
      · rcases hmem with h | h
        · exact Or.inl h
        · exact Or.inr (List.mem_cons_of_mem g h)
      · intro x hx
        rcases List.mem_cons.mp hx with rfl | hx2
        · exact le_trans (Nat.le_of_not_lt hgf) hle
        · exact hall x hx2

/-- C3: on a non-empty folder list the report locator returns a candidate
folder whose modification time is maximal; on an empty folder list it
returns no folder (Python `max` raises `ValueError`). -/
theorem latest_folder_max (folders : List Folder) :
    (folders = [] → latest_folder folders = none) ∧
    (folders ≠ [] → ∃ f, latest_folder folders = some f ∧ f ∈ folders ∧
      ∀ g ∈ folders, g.mtime ≤ f.mtime) := by
  constructor
  · rintro rfl
    rfl
  · intro hne
    cases folders with
    | nil => exact absurd rfl hne
    | cons f fs =>
      obtain ⟨r, hr, hmem, hle, hall⟩ := latest_folder_cons fs f
      refine ⟨r, hr, ?_, ?_⟩
      · rcases hmem with h | h
        · exact h ▸ List.mem_cons_self f fs
        · exact List.mem_cons_of_mem f h
      · intro g hg
        rcases List.mem_cons.mp hg with rfl | h
        · exact hle
        · exact hall g h

lemma promptTemplate_length (s : String) :
    (promptTemplate s).length =
      "次の会話を要約してください（日本語）:\n\n".length + s.length +
        "\n\n要約:\n".length := by
  simp [promptTemplate]

lemma promptOf_single (a c : String) :
    promptOf [⟨some a, some c⟩] = some (promptTemplate (a ++ ": " ++ c)) := rfl

lemma prompt_exceeding (B : Nat) :
    ∃ (msgs : List MessageJson) (p : String),
      promptOf msgs = some p ∧ B < p.length := by
  refine ⟨[⟨some "a", some (String.mk (List.replicate (B + 1) 'x'))⟩],
    promptTemplate ("a" ++ ": " ++ String.mk (List.replicate (B + 1) 'x')),
    promptOf_single _ _, ?_⟩
  rw [promptTemplate_length]
  have h2 : ("a" ++ ": " ++ String.mk (List.replicate (B + 1) 'x')).length
      = "a: ".length + (B + 1) := by simp
  omega

/-- C6 counterexample: no fixed bound dominates the size of every prompt —
the prompt embeds the whole conversation verbatim, with no truncation. -/
theorem prompt_size_bounded_false :
    ¬ ∃ B : Nat, ∀ (msgs : List MessageJson) (p : String),
        promptOf msgs = some p → p.length ≤ B := by
  rintro ⟨B, hB⟩
  have h2 : ("a" ++ ": " ++ String.mk (List.replicate (B + 1) 'x')).length
      = "a: ".length + (B + 1) := by simp
  have hlen := hB [⟨some "a", some (String.mk (List.replicate (B + 1) 'x'))⟩]
    (promptTemplate ("a" ++ ": " ++ String.mk (List.replicate (B + 1) 'x')))
    (promptOf_single _ _)
  rw [promptTemplate_length] at hlen
  omega

/-- C6 (amended): the prompt is not of bounded size — for every bound some
message list produces a longer prompt; the prompt's length is exactly the
fixed template overhead plus the length of the joined conversation. -/
theorem prompt_size_unbounded :
    (∀ B : Nat, ∃ (msgs : List MessageJson) (p : String),
      promptOf msgs = some p ∧ B < p.length) ∧
    (∀ lines : List String,
      (promptTemplate (conversationOf lines)).length =
        "次の会話を要約してください（日本語）:\n\n".length +
          (conversationOf lines).length + "\n\n要約:\n".length) :=
  ⟨prompt_exceeding, fun _ => promptTemplate_length _⟩

/-- Witness for C3 at folders with modification times 1, 2, 3. -/
theorem latest_folder_max_witness :
    ([⟨"a", 1, []⟩, ⟨"b", 2, []⟩, ⟨"c", 3, []⟩] : List Folder) ≠ [] ∧
    ∃ f, latest_folder [⟨"a", 1, []⟩, ⟨"b", 2, []⟩, ⟨"c", 3, []⟩] = some f ∧
      f ∈ ([⟨"a", 1, []⟩, ⟨"b", 2, []⟩, ⟨"c", 3, []⟩] : List Folder) ∧
      ∀ g ∈ ([⟨"a", 1, []⟩, ⟨"b", 2, []⟩, ⟨"c", 3, []⟩] : List Folder),
        g.mtime ≤ f.mtime :=
  ⟨by decide, (latest_folder_max _).2 (by decide)⟩

lemma runChannels_cons_ok (env : Env) (ch : Channel) (rest : List Channel)
    (h : (processChannel env ch).2 = none) :
    runChannels env (ch :: rest) =
      ((processChannel env ch).1 ++ (runChannels env rest).1,
        (runChannels env rest).2) := by
  rcases hpc : processChannel env ch with ⟨evs, fat⟩
  rcases hr : runChannels env rest with ⟨evs2, f2⟩
  rw [hpc] at h
  cases fat with
  | some e => simp at h
  | none => simp [runChannels, hpc, hr]

lemma runChannels_append_ok (env : Env) : ∀ (pre l2 : List Channel),
    (∀ c ∈ pre, (processChannel env c).2 = none) →
    runChannels env (pre ++ l2) =
      ((runChannels env pre).1 ++ (runChannels env l2).1,
        (runChannels env l2).2)
  | [], l2, _ => by simp [runChannels]
  | ch :: pre, l2, h => by
    have hch := h ch (List.mem_cons_self ch pre)
    have ih := runChannels_append_ok env pre l2
      (fun c hc => h c (List.mem_cons_of_mem ch hc))
    rcases hpc : processChannel env ch with ⟨evs, fat⟩
    rw [hpc] at hch
    cases fat with
    | some e => simp at hch
    | none => simp [runChannels, hpc, ih, List.append_assoc]

/-- C2: for a channel whose message list is empty, the loop body posts the
fixed "no activity" notice (which says the channel had no messages in the
past day) and logs the outcome; it raises nothing and never invokes the
model for that channel. -/
theorem empty_channel_no_invocation (env : Env) (ch : Channel)
    (h : ch.messages = []) :
    processChannel env ch =
      ([Event.posted ch.name (noActivityContent ch.name)
          (env.post (noActivityContent ch.name)),
        if env.post (noActivityContent ch.name) = 204 then Event.logOk ch.name
        else Event.logFail ch.name (env.post (noActivityContent ch.name))], none) ∧
    (processChannel env ch).1.filter Event.isInvoked = [] := by
  have hpc : processChannel env ch =
      ([Event.posted ch.name (noActivityContent ch.name)
          (env.post (noActivityContent ch.name)),
        if env.post (noActivityContent ch.name) = 204 then Event.logOk ch.name
        else Event.logFail ch.name (env.post (noActivityContent ch.name))], none) := by
    simp [processChannel, h]
  refine ⟨hpc, ?_⟩
  rw [hpc]
  by_cases h204 : env.post (noActivityContent ch.name) = 204 <;>
    simp [h204, Event.isInvoked]

/-- Witness for C2 at a concrete empty channel. -/
theorem empty_channel_no_invocation_witness :
    processChannel env204 ⟨"general", []⟩ =
      ([Event.posted "general" (noActivityContent "general")
          (env204.post (noActivityContent "general")),
        if env204.post (noActivityContent "general") = 204 then Event.logOk "general"
        else Event.logFail "general" (env204.post (noActivityContent "general"))],
        none) ∧
    (processChannel env204 ⟨"general", []⟩).1.filter Event.isInvoked = [] :=
  empty_channel_no_invocation env204 ⟨"general", []⟩ rfl

/-- C4: whenever the loop body for a channel posts to the webhook, a 204
status yields the success log, any other status yields the failure log with
that status, the channel's iteration raises nothing, and the loop continues
with the remaining channels. -/
theorem webhook_status_handling (env : Env) (ch : Channel) (rest : List Channel)
    (c : String) (s : Nat)
    (hpost : Event.posted ch.name c s ∈ (processChannel env ch).1) :
    (s = 204 → Event.logOk ch.name ∈ (processChannel env ch).1) ∧
    (s ≠ 204 → Event.logFail ch.name s ∈ (processChannel env ch).1) ∧
    (processChannel env ch).2 = none ∧
    runChannels env (ch :: rest) =
      ((processChannel env ch).1 ++ (runChannels env rest).1,
        (runChannels env rest).2) := by
  by_cases hm : ch.messages = []
  · have hpc : processChannel env ch =
        ([Event.posted ch.name (noActivityContent ch.name)
            (env.post (noActivityContent ch.name)),
          if env.post (noActivityContent ch.name) = 204 then Event.logOk ch.name
          else Event.logFail ch.name (env.post (noActivityContent ch.name))],
          none) := by
      simp [processChannel, hm]
    rw [hpc] at hpost
    by_cases h204 : env.post (noActivityContent ch.name) = 204
    · simp [h204] at hpost
      obtain ⟨hc, hs⟩ := hpost
      subst hs
      refine ⟨fun _ => ?_, fun hne => absurd rfl hne, by rw [hpc],
        runChannels_cons_ok env ch rest (by rw [hpc])⟩
      rw [hpc]
      simp [h204]
    · simp [h204] at hpost
      obtain ⟨hc, hs⟩ := hpost
      subst hs
      refine ⟨fun h2 => absurd h2 h204, fun _ => ?_, by rw [hpc],
        runChannels_cons_ok env ch rest (by rw [hpc])⟩
      rw [hpc]
      simp [h204]
  · rcases hfmt : formatLines ch.messages with e | lines
    · have hpc : processChannel env ch = ([], some (Fatal.keyError ch.name)) := by
        simp [processChannel, hm, hfmt]
      rw [hpc] at hpost
      simp at hpost
    · rcases hllm : env.llm (promptTemplate (conversationOf lines)) with _ | text
      · have hpc : processChannel env ch =
            ([Event.formatted ch.name], some (Fatal.generationFailed ch.name)) := by
          simp [processChannel, hm, hfmt, hllm]
        rw [hpc] at hpost
        simp at hpost
      · have hpc : processChannel env ch =
            ([Event.formatted ch.name,
              Event.invoked ch.name (promptTemplate (conversationOf lines)),
              Event.posted ch.name (summaryContent ch.name text)
                (env.post (summaryContent ch.name text)),
              if env.post (summaryContent ch.name text) = 204 then Event.logOk ch.name
              else Event.logFail ch.name (env.post (summaryContent ch.name text))],
              none) := by
          simp [processChannel, hm, hfmt, hllm]
        rw [hpc] at hpost
        by_cases h204 : env.post (summaryContent ch.name text) = 204
        · simp [h204] at hpost
          obtain ⟨hc, hs⟩ := hpost
          subst hs
          refine ⟨fun _ => ?_, fun hne => absurd rfl hne, by rw [hpc],
            runChannels_cons_ok env ch rest (by rw [hpc])⟩
          rw [hpc]
          simp [h204]
        · simp [h204] at hpost
          obtain ⟨hc, hs⟩ := hpost
          subst hs
          refine ⟨fun h2 => absurd h2 h204, fun _ => ?_, by rw [hpc],
            runChannels_cons_ok env ch rest (by rw [hpc])⟩
          rw [hpc]
          simp [h204]

/-- Witness for C4 at a concrete channel whose webhook answers 500. -/
theorem webhook_status_handling_witness :
    Event.logFail "general" 500 ∈ (processChannel env500 ⟨"general", []⟩).1 ∧
    (processChannel env500 ⟨"general", []⟩).2 = none ∧
    runChannels env500 [⟨"general", []⟩, ⟨"dev", []⟩] =
      ((processChannel env500 ⟨"general", []⟩).1 ++
        (runChannels env500 [⟨"dev", []⟩]).1,
        (runChannels env500 [⟨"dev", []⟩]).2) :=
  ⟨(webhook_status_handling env500 ⟨"general", []⟩ [⟨"dev", []⟩]
      (noActivityContent "general") 500 (by decide)).2.1 (by decide),
    (webhook_status_handling env500 ⟨"general", []⟩ [⟨"dev", []⟩]
      (noActivityContent "general") 500 (by decide)).2.2.1,
    (webhook_status_handling env500 ⟨"general", []⟩ [⟨"dev", []⟩]
      (noActivityContent "general") 500 (by decide)).2.2.2⟩

/-- C5: when the webhook URL environment variable is unset, the run emits no
event at all — no formatting, no model invocation, no webhook POST — and
dies with an uncaught exception; if the earlier steps (folder selection and
model construction) succeed, that exception is exactly the explicit
missing-configuration one. -/
theorem webhook_unset_aborts (env : Env) (h : env.webhookUrl = none) :
    (run env).1 = [] ∧ (run env).2 ≠ none ∧
    (env.modelLoadOk = true → env.folders ≠ [] →
      (run env).2 = some Fatal.webhookUnset) := by
  rcases hf : latest_folder env.folders with _ | folder
  · have hrun : run env = ([], some Fatal.noFolders) := by simp [run, hf]
    refine ⟨by simp [hrun], by simp [hrun], ?_⟩
    intro _ hne
    cases hfold : env.folders with
    | nil => exact absurd hfold hne
    | cons f fs =>
      rw [hfold] at hf
      simp [latest_folder] at hf
  · cases hload : env.modelLoadOk with
    | false =>
      have hrun : run env = ([], some Fatal.modelLoadFailed) := by
        simp [run, hf, hload]
      exact ⟨by simp [hrun], by simp [hrun],
        fun h2 => absurd h2 (by simp [hload])⟩
    | true =>
      have hrun : run env = ([], some Fatal.webhookUnset) := by
        simp [run, hf, hload, h]
      exact ⟨by simp [hrun], by simp [hrun], fun _ _ => by simp [hrun]⟩

/-- Witness for C5 at a concrete environment with the URL unset. -/
theorem webhook_unset_aborts_witness :
    (run envNoUrl).1 = [] ∧ (run envNoUrl).2 ≠ none ∧
    (run envNoUrl).2 = some Fatal.webhookUnset :=
  ⟨(webhook_unset_aborts envNoUrl rfl).1,
    (webhook_unset_aborts envNoUrl rfl).2.1,
    (webhook_unset_aborts envNoUrl rfl).2.2 rfl (by decide)⟩

/-- C7: a model failure is fatal.  When generation raises on any channel of
the batch — after an arbitrary prefix of channels that completed without an
exception — the whole run stops there, keeping only the prefix's events plus
the failing channel's formatting: no subsequent channel is formatted,
summarized or delivered.  When the model cannot be loaded, the run dies
before processing any channel at all. -/
theorem model_failure_fatal (env env2 : Env) (folder : Folder)
    (pre rest : List Channel) (ch : Channel) (lines : List String)
    (hf : latest_folder env.folders = some folder)
    (hch : folder.channels = pre ++ ch :: rest)
    (hpre : ∀ c ∈ pre, (processChannel env c).2 = none)
    (hload : env.modelLoadOk = true)
    (hurl : env.webhookUrl ≠ none)
    (hne : ch.messages ≠ [])
    (hfmt : formatLines ch.messages = .ok lines)
    (hgen : env.llm (promptTemplate (conversationOf lines)) = none)
    (hload2 : env2.modelLoadOk = false) :
    run env = ((runChannels env pre).1 ++ [Event.formatted ch.name],
      some (Fatal.generationFailed ch.name)) ∧
    (run env2).1 = [] ∧ (run env2).2 ≠ none := by
  obtain ⟨u, hu⟩ := Option.ne_none_iff_exists'.mp hurl
  have hpc : processChannel env ch =
      ([Event.formatted ch.name], some (Fatal.generationFailed ch.name)) := by
    simp [processChannel, hne, hfmt, hgen]
  have hcr : runChannels env (ch :: rest) =
      ([Event.formatted ch.name], some (Fatal.generationFailed ch.name)) := by
    simp [runChannels, hpc]
  refine ⟨?_, ?_, ?_⟩
  · rw [show run env = runChannels env folder.channels from by
      simp [run, hf, hload, hu], hch,
      runChannels_append_ok env pre (ch :: rest) hpre, hcr]
  · rcases hf2 : latest_folder env2.folders with _ | f2 <;> simp [run, hf2, hload2]
  · rcases hf2 : latest_folder env2.folders with _ | f2 <;> simp [run, hf2, hload2]

/-- Witness for C7: a concrete run whose model fails to generate on the
second channel, after the first channel was delivered, and a concrete run
whose model fails to load. -/
theorem model_failure_fatal_witness :
    run envGenFail =
      ((runChannels envGenFail [⟨"intro", []⟩]).1 ++ [Event.formatted "general"],
        some (Fatal.generationFailed "general")) ∧
    (run envLoadFail).1 = [] ∧ (run envLoadFail).2 ≠ none :=
  model_failure_fatal envGenFail envLoadFail
    ⟨"reports/20250101", 1,
      [⟨"intro", []⟩, ⟨"general", [⟨some "a", some "b"⟩]⟩, ⟨"dev", []⟩]⟩
    [⟨"intro", []⟩] [⟨"dev", []⟩] ⟨"general", [⟨some "a", some "b"⟩]⟩
    ["a" ++ ": " ++ "b"]
    rfl rfl (by decide) rfl (by decide) (by decide) rfl rfl rfl

lemma runChannels_all_empty (env : Env) : ∀ (chans : List Channel),
    (∀ ch ∈ chans, ch.messages = []) →
    runChannels env chans =
      (chans.flatMap (fun ch =>
        [Event.posted ch.name (noActivityContent ch.name)
            (env.post (noActivityContent ch.name)),
          if env.post (noActivityContent ch.name) = 204 then Event.logOk ch.name
          else Event.logFail ch.name (env.post (noActivityContent ch.name))]),
        none)
  | [], _ => rfl
  | ch :: chans, h => by
    have hh := h ch (List.mem_cons_self ch chans)
    have ih := runChannels_all_empty env chans
      (fun c hc => h c (List.mem_cons_of_mem ch hc))
    have hpc : processChannel env ch =
        ([Event.posted ch.name (noActivityContent ch.name)
            (env.post (noActivityContent ch.name)),
          if env.post (noActivityContent ch.name) = 204 then Event.logOk ch.name
          else Event.logFail ch.name (env.post (noActivityContent ch.name))],
          none) := by
      simp [processChannel, hh]
    simp [runChannels, hpc, ih]

lemma filter_isPost_flatMap (env : Env) : ∀ (chans : List Channel),
    (chans.flatMap (fun ch =>
      [Event.posted ch.name (noActivityContent ch.name)
          (env.post (noActivityContent ch.name)),
        if env.post (noActivityContent ch.name) = 204 then Event.logOk ch.name
        else Event.logFail ch.name
          (env.post (noActivityContent ch.name))])).filter Event.isPost =
      chans.map (fun ch =>
        Event.posted ch.name (noActivityContent ch.name)
          (env.post (noActivityContent ch.name)))
  | [] => rfl
  | ch :: chans => by
    have ih := filter_isPost_flatMap env chans
    by_cases h204 : env.post (noActivityContent ch.name) = 204 <;>
      simp [h204, Event.isPost, ih]

/-- C8: when every channel file of the latest report folder parses to an
empty message list, the run finishes without a fatal error, and the webhook
POSTs it performs are exactly one "no activity" notice per channel file, in
order. -/
theorem all_empty_channels_complete (env : Env) (folder : Folder)
    (hf : latest_folder env.folders = some folder)
    (hload : env.modelLoadOk = true)
    (hurl : env.webhookUrl ≠ none)
    (hempty : ∀ ch ∈ folder.channels, ch.messages = []) :
    (run env).2 = none ∧
    (run env).1.filter Event.isPost =
      folder.channels.map (fun ch =>
        Event.posted ch.name (noActivityContent ch.name)
          (env.post (noActivityContent ch.name))) := by
  obtain ⟨u, hu⟩ := Option.ne_none_iff_exists'.mp hurl
  have hrc := runChannels_all_empty env folder.channels hempty
  rw [show run env = runChannels env folder.channels from by
    simp [run, hf, hload, hu], hrc]
  exact ⟨rfl, filter_isPost_flatMap env folder.channels⟩

/-- Witness for C8 at a concrete folder with two empty channels. -/
theorem all_empty_channels_complete_witness :
    (run env204).2 = none ∧
    (run env204).1.filter Event.isPost =
      ([⟨"general", []⟩, ⟨"dev", []⟩] : List Channel).map (fun ch =>
        Event.posted ch.name (noActivityContent ch.name)
          (env204.post (noActivityContent ch.name))) :=
  all_empty_channels_complete env204
    ⟨"reports/20250101", 1, [⟨"general", []⟩, ⟨"dev", []⟩]⟩
    rfl rfl (by decide) (by decide)

lemma formatLines_ok_keys : ∀ (msgs : List MessageJson) (lines : List String),
    formatLines msgs = .ok lines →
    ∀ m ∈ msgs, m.author ≠ none ∧ m.content ≠ none
  | [], _, _, m, hm => absurd hm (List.not_mem_nil m)
  | m0 :: ms, lines, h, m, hm => by
    cases ha : m0.author with
    | none => simp [formatLines, formatLine, ha] at h
    | some a =>
      cases hc : m0.content with
      | none => simp [formatLines, formatLine, ha, hc] at h
      | some c =>
        cases hrec : formatLines ms with
        | error e => simp [formatLines, formatLine, ha, hc, hrec] at h
        | ok rest =>
          rcases List.mem_cons.mp hm with rfl | hm2
          · exact ⟨by simp [ha], by simp [hc]⟩
          · exact formatLines_ok_keys ms rest hrec m hm2

lemma formatLines_error_of_bad (msgs : List MessageJson) (m : MessageJson)
    (hm : m ∈ msgs) (hbad : m.author = none ∨ m.content = none) :
    ∃ e, formatLines msgs = .error e := by
  cases hfmt : formatLines msgs with
  | error e => exact ⟨e, rfl⟩
  | ok lines =>
    obtain ⟨ha, hc⟩ := formatLines_ok_keys msgs lines hfmt m hm
    rcases hbad with h | h
    · exact absurd h ha
    · exact absurd h hc

/-- C10: a channel containing a record that lacks the author key or the
content key makes its loop iteration raise an uncaught KeyError: the batch
stops there, keeping only the events of the earlier channels, and no later
channel is processed or delivered. -/
theorem missing_key_aborts (env : Env) (pre rest : List Channel)
    (ch : Channel) (m : MessageJson)
    (hm : m ∈ ch.messages)
    (hbad : m.author = none ∨ m.content = none)
    (hpre : ∀ c ∈ pre, (processChannel env c).2 = none) :
    processChannel env ch = ([], some (Fatal.keyError ch.name)) ∧
    runChannels env (pre ++ ch :: rest) =
      ((runChannels env pre).1, some (Fatal.keyError ch.name)) := by
  obtain ⟨e, he⟩ := formatLines_error_of_bad ch.messages m hm hbad
  have hne : ch.messages ≠ [] := by
    rintro h0
    rw [h0] at hm
    exact List.not_mem_nil m hm
  have hpc : processChannel env ch = ([], some (Fatal.keyError ch.name)) := by
    simp [processChannel, hne, he]
  refine ⟨hpc, ?_⟩
  rw [runChannels_append_ok env pre (ch :: rest) hpre]
  simp [runChannels, hpc]

/-- Witness for C10: a concrete batch whose second channel has a record
with no author key. -/
theorem missing_key_aborts_witness :
    processChannel env204 ⟨"bad", [⟨none, some "hi"⟩]⟩ =
      ([], some (Fatal.keyError "bad")) ∧
    runChannels env204
        ([⟨"general", []⟩] ++ ⟨"bad", [⟨none, some "hi"⟩]⟩ :: [⟨"later", []⟩]) =
      ((runChannels env204 [⟨"general", []⟩]).1, some (Fatal.keyError "bad")) :=
  missing_key_aborts env204 [⟨"general", []⟩] [⟨"later", []⟩]
    ⟨"bad", [⟨none, some "hi"⟩]⟩ ⟨none, some "hi"⟩
    (by decide) (Or.inl rfl) (by decide)

end Surveillance
